import Mathlib

/-!
Verification of the SlideSnap slide-extraction engine
(`src/slidesnap_final.py`, function `extract_slides` and its helpers).

Shallow embedding conventions:

* A frame is identified by its 1-based index in the source stream.  The
  pixel-level numeric primitives (SSIM over the cropped, resized grayscale
  region, Bhattacharyya histogram distance over the same, Laplacian
  variance of the full grayscale frame) are consumed as an abstract
  numeric oracle `FrameOps`, exactly as the specification's "Similarity
  Engine (consumed contract)" prescribes: the scores are rationals,
  indexed by the frames they compare.  All control flow of the engine is
  embedded directly from the Python source.
* Python `int()` truncation is `pyTrunc`; machine floats are modelled as
  exact rationals.
* The state record `EngineState` carries the loop-local variables of
  `extract_slides` (`reference_slide`, `candidate_frame`,
  `candidate_frame_color`, `stable_count`, `slide_count`, `cooldown`)
  plus the list of written slides `(slide number, source frame index)`
  in write order.
* The per-sampled-frame body of the loop is `stepSampled`.  The whole
  frame loop is `runFramesE`, in `Except String` because the progress
  computation `(frame_idx / total_frames) * 100` raises
  `ZeroDivisionError` in Python when the reported total frame count is
  zero and a callback is supplied; every branch of the loop body
  performs that computation (when a callback is present) before any
  state change, which is why the error test is hoisted to the front of
  the sampled-frame case.
-/

namespace SlideSnap

/-- Config constant from the source: `SSIM_THRESHOLD = 0.85`. -/
def SSIM_THRESHOLD : ℚ := 0.85

/-- Config constant from the source: `BLUR_THRESHOLD = 50`. -/
def BLUR_THRESHOLD : ℚ := 50

/-- Config constant from the source: `MIN_STABLE_SECONDS = 0.8`. -/
def MIN_STABLE_SECONDS : ℚ := 0.8

/-- Config constant from the source: `FRAME_SKIP = 2`. -/
def FRAME_SKIP : ℕ := 2

/-- Config constant from the source: `HIST_THRESHOLD = 0.25`. -/
def HIST_THRESHOLD : ℚ := 0.25

/-- Config constant from the source: `COOLDOWN_SECONDS = 0.3`. -/
def COOLDOWN_SECONDS : ℚ := 0.3

/-- Python `int()` applied to a float: truncation toward zero. -/
def pyTrunc (q : ℚ) : ℤ :=
  if 0 ≤ q then ⌊q⌋ else ⌈q⌉

/-- `min_stable_frames = int(MIN_STABLE_SECONDS * fps / FRAME_SKIP)`
(source line 171), with the frame-skip divisor kept as a parameter. -/
def min_stable_of (fps skip : ℚ) : ℤ :=
  pyTrunc (MIN_STABLE_SECONDS * fps / skip)

/-- `cooldown_frames = int(COOLDOWN_SECONDS * fps / FRAME_SKIP)`
(source line 172), with the frame-skip divisor kept as a parameter. -/
def cooldown_of (fps skip : ℚ) : ℤ :=
  pyTrunc (COOLDOWN_SECONDS * fps / skip)

/-- The dynamic histogram threshold of `extract_slides` (source line 161):
`hist_thresh = 0.15 + (1.0 - threshold) * 0.2`. -/
def derived_hist_thresh (threshold : ℚ) : ℚ :=
  0.15 + (1 - threshold) * 0.2

/-- The numeric oracle for the pixel-level primitives, indexed by frame
number: `ssimScore a b` is the SSIM of the cropped, resized grayscale
regions of frames `a` and `b` (first argument in the reference/candidate
position, as in the source calls), `histScore a b` the Bhattacharyya
histogram distance of the same, and `lapVar g` the Laplacian variance of
the full grayscale frame `g`. -/
structure FrameOps where
  ssimScore : ℕ → ℕ → ℚ
  histScore : ℕ → ℕ → ℚ
  lapVar : ℕ → ℚ

/-- `is_blurry` (source lines 138-140): Laplacian variance below
`BLUR_THRESHOLD`. -/
def is_blurry (ops : FrameOps) (g : ℕ) : Bool :=
  decide (ops.lapVar g < BLUR_THRESHOLD)

/-- `detect_scene_change` (source lines 115-135): change when the
reference is absent, or SSIM is below the threshold, or histogram
distance is above the histogram threshold. -/
def detect_scene_change (ops : FrameOps) (ref_frame : Option ℕ) (curr_frame : ℕ)
    (ssim_threshold hist_threshold : ℚ) : Bool :=
  match ref_frame with
  | none => true
  | some r =>
      decide (ops.ssimScore r curr_frame < ssim_threshold) ||
      decide (ops.histScore r curr_frame > hist_threshold)

/-- `frames_similar` (source lines 143-151): SSIM only, no histogram. -/
def frames_similar (ops : FrameOps) (a b : ℕ) (ssim_threshold : ℚ) : Bool :=
  decide (ops.ssimScore a b ≥ ssim_threshold)

/-- The per-run threshold configuration derived at the top of
`extract_slides`. -/
structure Config where
  threshold : ℚ
  hist_thresh : ℚ
  min_stable_frames : ℕ
  cooldown_frames : ℕ
deriving Repr, DecidableEq

/-- The loop-local state of `extract_slides`: `reference_slide`,
`candidate_frame`, `candidate_frame_color` hold frame indices (the frame
whose grayscale / color buffer the Python variable holds), plus the
stability counter, committed-slide counter, cooldown counter, and the
list of written slides `(slide number, source frame index)` in write
order. -/
structure EngineState where
  reference_slide : Option ℕ
  candidate_frame : Option ℕ
  candidate_frame_color : Option ℕ
  stable_count : ℕ
  slide_count : ℕ
  cooldown : ℕ
  slides : List (ℕ × ℕ)
deriving Repr, DecidableEq

/-- The initial state of one extraction run (source lines 178-184). -/
def initState : EngineState :=
  { reference_slide := none
    candidate_frame := none
    candidate_frame_color := none
    stable_count := 0
    slide_count := 0
    cooldown := 0
    slides := [] }

/-- The body of the frame loop of `extract_slides` for one sampled frame
`i` (source lines 196-254), excluding the observational progress
callback.  Mirrors the source exactly: first-frame gating with the blur
veto, the cooldown decrement, the early blur rejection, scene-change
detection against the reference, candidate adoption / extension / churn,
and the stability-triggered commit that writes the candidate's color
form, installs the candidate's grayscale form as the new reference, and
starts the cooldown.  (`candidate_frame_color.getD 0` stands for the
unchecked Python read of `candidate_frame_color` at the commit; the
pair-coherence invariant proved below shows it is always a `some` whose
content equals `candidate_frame`.) -/
def stepSampled (ops : FrameOps) (cfg : Config) (i : ℕ) (s : EngineState) : EngineState :=
  match s.reference_slide with
  | none =>
      if is_blurry ops i then s
      else
        { s with
            slide_count := s.slide_count + 1
            slides := s.slides ++ [(s.slide_count + 1, i)]
            reference_slide := some i }
  | some _ =>
      if 0 < s.cooldown then
        { s with cooldown := s.cooldown - 1 }
      else if is_blurry ops i then
        { s with stable_count := 0, candidate_frame := none }
      else if detect_scene_change ops s.reference_slide i cfg.threshold cfg.hist_thresh then
        let s1 :=
          match s.candidate_frame with
          | none =>
              { s with
                  candidate_frame := some i
                  candidate_frame_color := some i
                  stable_count := 1 }
          | some c =>
              if frames_similar ops c i cfg.threshold then
                { s with stable_count := s.stable_count + 1 }
              else
                { s with
                    candidate_frame := some i
                    candidate_frame_color := some i
                    stable_count := 1 }
        if cfg.min_stable_frames ≤ s1.stable_count then
          { s1 with
              slide_count := s1.slide_count + 1
              slides := s1.slides ++ [(s1.slide_count + 1, s1.candidate_frame_color.getD 0)]
              reference_slide := s1.candidate_frame
              candidate_frame := none
              stable_count := 0
              cooldown := cfg.cooldown_frames }
        else s1
      else
        { s with stable_count := 0, candidate_frame := none }

/-- The engine run over an explicit list of sampled-frame indices. -/
def runSeq (ops : FrameOps) (cfg : Config) (fs : List ℕ) (s : EngineState) : EngineState :=
  fs.foldl (fun t i => stepSampled ops cfg i t) s

/-- The frame loop of `extract_slides` over `n` remaining frames,
starting from frame counter `frame_idx` (source lines 186-254): each
frame increments the counter, non-sampled frames (counter not divisible
by `FRAME_SKIP`) are skipped, and on every sampled frame the progress
computation `(frame_idx / total_frames) * 100` runs first in each branch
whenever a callback is supplied, raising `ZeroDivisionError` when the
reported total frame count is zero. -/
def runFramesE (ops : FrameOps) (cfg : Config) (cb : Bool) (total : ℤ) :
    ℕ → ℕ → EngineState → Except String EngineState
  | 0, _, s => Except.ok s
  | n + 1, frame_idx, s =>
      let i := frame_idx + 1
      if i % FRAME_SKIP ≠ 0 then
        runFramesE ops cfg cb total n i s
      else if cb && decide (total = 0) then
        Except.error "ZeroDivisionError: division by zero"
      else
        runFramesE ops cfg cb total n i (stepSampled ops cfg i s)

/-- The progress percentage computed on each sampled frame when a
callback is supplied (source lines 200-201, 214-216, 219-221):
`(frame_idx / total_frames) * 100`, undefined when the reported total
frame count is zero. -/
def progress_value (frame_idx total_frames : ℤ) : Option ℚ :=
  if total_frames = 0 then none
  else some ((frame_idx : ℚ) / (total_frames : ℚ) * 100)

/-- The result of `extract_slides`: either the structured error
dictionary (`error` set, zero slides) or the success dictionary, plus
the bookkeeping this development tracks — the written slides and whether
`os.makedirs(output_dir)` ran. -/
structure ExtractResult where
  error : Option String
  slides : ℕ
  written : List (ℕ × ℕ)
  dirCreated : Bool
deriving Repr, DecidableEq

/-- `extract_slides` (source lines 154-261).  Inputs beyond the oracle:
the optional caller threshold, whether the capture opens, the reported
frame rate and total frame count, whether a progress callback is
supplied, and the number of frames the source actually yields.  A
Python-level `ZeroDivisionError` escaping the function is the
`Except.error` case; the source-unopenable dictionary return is a normal
`Except.ok` value. -/
def extract_slides (ops : FrameOps) (ssim_threshold : Option ℚ) (opens : Bool)
    (fps_meta : ℚ) (total_frames : ℤ) (cb : Bool) (n : ℕ) :
    Except String ExtractResult :=
  let threshold := ssim_threshold.getD SSIM_THRESHOLD
  let hist_thresh := derived_hist_thresh threshold
  if opens = false then
    Except.ok { error := some "Cannot open video", slides := 0, written := [], dirCreated := false }
  else
    let fps := if fps_meta ≤ 0 then 25 else fps_meta
    let cfg : Config :=
      { threshold := threshold
        hist_thresh := hist_thresh
        min_stable_frames := (min_stable_of fps (FRAME_SKIP : ℚ)).toNat
        cooldown_frames := (cooldown_of fps (FRAME_SKIP : ℚ)).toNat }
    match runFramesE ops cfg cb total_frames n 0 initState with
    | Except.error e => Except.error e
    | Except.ok s =>
        Except.ok { error := none, slides := s.slide_count, written := s.slides, dirCreated := true }

/-- Slide count of a run outcome, when the run returned at all. -/
def resultSlideCount : Except String ExtractResult → Option ℕ
  | Except.ok r => some r.slides
  | Except.error _ => none

/-- State of the engine after the first `j` sampled frames of the
sampled-frame sequence `fs`, starting from the initial state. -/
def stateAt (ops : FrameOps) (cfg : Config) (fs : List ℕ) (j : ℕ) : EngineState :=
  runSeq ops cfg (fs.take j) initState

/-- A slide is committed at sampled step `j` (processing `fs[j]`). -/
def commitAt (ops : FrameOps) (cfg : Config) (fs : List ℕ) (j : ℕ) : Prop :=
  (stateAt ops cfg fs j).slide_count < (stateAt ops cfg fs (j + 1)).slide_count

/-- No commit occurs strictly between sampled steps `j1` and `j2`. -/
def noCommitStrictlyBetween (ops : FrameOps) (cfg : Config) (fs : List ℕ) (j1 j2 : ℕ) : Prop :=
  ∀ j, j1 < j → j < j2 → ¬ commitAt ops cfg fs j

/-- An everywhere-sharp, everywhere-structurally-different oracle used
for concrete witnesses: SSIM is 1/2 for every pair, histogram distance
0, Laplacian variance 100. -/
def opsHalf : FrameOps :=
  { ssimScore := fun _ _ => 1/2
    histScore := fun _ _ => 0
    lapVar := fun _ => 100 }

/-- A witness oracle whose frames 1 and 2 are blurry (Laplacian variance
0) and all later frames sharp (variance 100); scores as in `opsHalf`. -/
def opsLateSharp : FrameOps :=
  { ssimScore := fun _ _ => 1/2
    histScore := fun _ _ => 0
    lapVar := fun g => if g ≤ 2 then 0 else 100 }

/-- A small concrete configuration for witnesses: threshold 3/4 (so the
`opsHalf` SSIM of 1/2 always registers as a change), histogram threshold
0, one stable frame required, one cooldown frame. -/
def cfgW : Config :=
  { threshold := 3/4
    hist_thresh := 0
    min_stable_frames := 1
    cooldown_frames := 1 }

/-- The state after sampled frame 1 under `opsHalf` and `cfgW` (first
slide committed), used as a concrete reachable state in witnesses. -/
def sW10 : EngineState :=
  { reference_slide := some 1
    candidate_frame := none
    candidate_frame_color := none
    stable_count := 0
    slide_count := 1
    cooldown := 0
    slides := [(1, 1)] }

/-- C9: when the frame source cannot be opened, `extract_slides` returns
the structured error dictionary (`error` string set, zero slides) as a
normal return value — not a raised fault — having written nothing and
without creating the output directory. -/
theorem c9_unopenable (ops : FrameOps) (t : Option ℚ) (fps : ℚ) (total : ℤ)
    (cb : Bool) (n : ℕ) :
    extract_slides ops t false fps total cb n =
      Except.ok { error := some "Cannot open video", slides := 0, written := [], dirCreated := false } := by
  simp [extract_slides]

/-- C7 (amended): an empty source yields slide count 0 without error,
and a one-frame source also yields slide count 0 regardless of blur —
with the default `FRAME_SKIP = 2` the sole frame has index 1, which is
never sampled — in both cases completing without a crash for every
oracle, threshold, reported metadata and callback choice. -/
theorem c7_empty_single (ops : FrameOps) (t : Option ℚ) (fps : ℚ) (total : ℤ)
    (cb : Bool) :
    extract_slides ops t true fps total cb 0 =
      Except.ok { error := none, slides := 0, written := [], dirCreated := true } ∧
    extract_slides ops t true fps total cb 1 =
      Except.ok { error := none, slides := 0, written := [], dirCreated := true } := by
  constructor <;> simp [extract_slides, runFramesE, initState, FRAME_SKIP]

/-- C7 (counterexample): a single-frame source whose frame is sharp
(Laplacian variance 100 ≥ 50) still returns slide count 0, not the
claimed 1, because frame index 1 is not divisible by `FRAME_SKIP = 2`
and is therefore never evaluated. -/
theorem c7_counterexample :
    resultSlideCount (extract_slides opsHalf none true 25 1 false 1) = some 0 ∧
    resultSlideCount (extract_slides opsHalf none true 25 1 false 1) ≠ some 1 := by
  norm_num [extract_slides, runFramesE, initState, FRAME_SKIP, resultSlideCount]

/-- C8: with a progress callback supplied and a reported total frame
count of 0, a two-frame source makes `extract_slides` raise
`ZeroDivisionError` at the progress computation
`(frame_idx / total_frames) * 100` on the first sampled frame, and that
percentage itself is undefined at a zero reported total. -/
theorem c8_progress_crash :
    extract_slides opsHalf none true 25 0 true 2 =
      Except.error "ZeroDivisionError: division by zero" ∧
    progress_value 2 0 = none := by
  norm_num [extract_slides, runFramesE, initState, FRAME_SKIP, progress_value]

/-- C2 (counterexample): at fps = 25 and frame_skip = 2 the code derives
`cooldown_frames = int(0.3 * 25 / 2) = int(3.75) = 3`, whereas
rounding to the nearest integer as the claim states would give
`round(3.75) = 4`. -/
theorem c2_counterexample :
    cooldown_of 25 2 = 3 ∧ round (COOLDOWN_SECONDS * (25 : ℚ) / 2) = 4 ∧ (3 : ℤ) ≠ 4 := by
  refine ⟨?_, ?_, by norm_num⟩
  · norm_num [cooldown_of, pyTrunc, COOLDOWN_SECONDS, Int.floor_eq_iff]
  · rw [round_eq]
    norm_num [COOLDOWN_SECONDS, Int.floor_eq_iff]

/-- C2 (amended): the derived constants use Python `int()` truncation,
which on the nonnegative values arising here is the floor:
`min_stable_frames = ⌊0.8 * fps / frame_skip⌋` and
`cooldown_frames = ⌊0.3 * fps / frame_skip⌋` for every nonnegative fps
and positive frame_skip. -/
theorem c2_truncation (fps skip : ℚ) (hf : 0 ≤ fps) (hs : 0 < skip) :
    min_stable_of fps skip = ⌊MIN_STABLE_SECONDS * fps / skip⌋ ∧
    cooldown_of fps skip = ⌊COOLDOWN_SECONDS * fps / skip⌋ := by
  have h1 : (0 : ℚ) ≤ MIN_STABLE_SECONDS * fps / skip := by
    unfold MIN_STABLE_SECONDS; positivity
  have h2 : (0 : ℚ) ≤ COOLDOWN_SECONDS * fps / skip := by
    unfold COOLDOWN_SECONDS; positivity
  exact ⟨by unfold min_stable_of pyTrunc; rw [if_pos h1],
         by unfold cooldown_of pyTrunc; rw [if_pos h2]⟩

theorem c2_truncation_witness :
    (0 : ℚ) ≤ 25 ∧ (0 : ℚ) < 2 ∧
    (min_stable_of 25 2 = ⌊MIN_STABLE_SECONDS * 25 / 2⌋ ∧
     cooldown_of 25 2 = ⌊COOLDOWN_SECONDS * 25 / 2⌋) :=
  ⟨by norm_num, by norm_num, c2_truncation 25 2 (by norm_num) (by norm_num)⟩

/-- C1 (counterexample): lowering `similarity_threshold` can strictly
decrease the committed slide count.  With SSIM 1/2 between all frames,
zero histogram distance and all frames sharp, a four-frame source at
fps 3 yields 2 slides at threshold 0.85 but only 1 slide at the lower
threshold 0.25 (at which `ssim_score < threshold` no longer fires). -/
theorem c1_counterexample :
    resultSlideCount (extract_slides opsHalf (some (85/100)) true 3 4 false 4) = some 2 ∧
    resultSlideCount (extract_slides opsHalf (some (25/100)) true 3 4 false 4) = some 1 ∧
    (1 : ℕ) < 2 := by
  norm_num [extract_slides, runFramesE, stepSampled, initState, FRAME_SKIP,
    resultSlideCount, is_blurry, detect_scene_change, frames_similar,
    derived_hist_thresh, min_stable_of, cooldown_of, pyTrunc,
    MIN_STABLE_SECONDS, COOLDOWN_SECONDS, BLUR_THRESHOLD, opsHalf,
    Int.floor_eq_iff]

/-- C1 (amended): per-comparison change detection is monotone
nondecreasing in `similarity_threshold` under the derived histogram
threshold: any scene change detected at threshold `t1` is also detected
at any `t2 ≥ t1`, so decreasing the threshold makes structural matching
stricter, not more permissive, and the slide count is not antitone in
the threshold. -/
theorem c1_detect_monotone (ops : FrameOps) (ref : Option ℕ) (curr : ℕ)
    (t1 t2 : ℚ) (hle : t1 ≤ t2)
    (hdet : detect_scene_change ops ref curr t1 (derived_hist_thresh t1) = true) :
    detect_scene_change ops ref curr t2 (derived_hist_thresh t2) = true := by
  cases ref with
  | none => rfl
  | some r =>
    simp only [detect_scene_change, Bool.or_eq_true, decide_eq_true_eq] at hdet ⊢
    rcases hdet with h | h
    · exact Or.inl (lt_of_lt_of_le h hle)
    · refine Or.inr (lt_of_le_of_lt ?_ h)
      unfold derived_hist_thresh
      linarith

/-- One-step preservation of the candidate/cooldown exclusion. -/
lemma c4_step (ops : FrameOps) (cfg : Config) (i : ℕ) (s : EngineState)
    (h : s.cooldown = 0 ∨ s.candidate_frame = none) :
    (stepSampled ops cfg i s).cooldown = 0 ∨
    (stepSampled ops cfg i s).candidate_frame = none := by
  unfold stepSampled
  cases href : s.reference_slide with
  | none =>
    by_cases hb : is_blurry ops i = true
    · simpa [hb] using h
    · simp only [Bool.not_eq_true] at hb
      simpa [hb] using h
  | some r =>
    by_cases hcool : 0 < s.cooldown
    · have hcand : s.candidate_frame = none := h.resolve_left (by omega)
      simp [hcool, hcand]
    · have hc0 : s.cooldown = 0 := by omega
      by_cases hb : is_blurry ops i = true
      · simp [hcool, hb]
      · by_cases hd : detect_scene_change ops (some r) i cfg.threshold cfg.hist_thresh = true
        · cases hcand : s.candidate_frame with
          | none =>
            by_cases hm : cfg.min_stable_frames ≤ 1 <;>
              simp [hcool, hb, hd, hcand, hm, hc0]
          | some c =>
            by_cases hsim : frames_similar ops c i cfg.threshold = true
            · by_cases hm : cfg.min_stable_frames ≤ s.stable_count + 1 <;>
                simp [hcool, hb, hd, hcand, hsim, hm, hc0]
            · by_cases hm : cfg.min_stable_frames ≤ 1 <;>
                simp [hcool, hb, hd, hcand, hsim, hm, hc0]
        · simp [hcool, hb, hd]

/-- C4: in every state the engine can reach from the initial state, a
live candidate and a positive cooldown counter never coexist — the
cooldown counter is zero or the candidate is absent.  Instantiating the
sampled-frame list with `[]` gives the initial state, and the induction
shows the disjunction is preserved by every transition. -/
theorem c4_candidate_cooldown_exclusive (ops : FrameOps) (cfg : Config) (fs : List ℕ) :
    (runSeq ops cfg fs initState).cooldown = 0 ∨
    (runSeq ops cfg fs initState).candidate_frame = none := by
  have H : ∀ (l : List ℕ) (s : EngineState),
      (s.cooldown = 0 ∨ s.candidate_frame = none) →
      ((runSeq ops cfg l s).cooldown = 0 ∨ (runSeq ops cfg l s).candidate_frame = none) := by
    intro l
    induction l with
    | nil => intro s h; exact h
    | cons a t ih =>
      intro s h
      have : runSeq ops cfg (a :: t) s = runSeq ops cfg t (stepSampled ops cfg a s) := by
        simp [runSeq]
      rw [this]
      exact ih _ (c4_step ops cfg a s h)
  exact H fs initState (Or.inl rfl)

/-- C5: a blurry sampled frame observed outside cooldown is never
committed as the first slide, never adopted as a candidate and never
extends one: in the awaiting-first-frame state the frame is skipped with
the state untouched, and once a reference exists the step only discards
any in-flight candidate and zeroes the stability count — for every
oracle, so no scene-change detection influences the outcome. -/
theorem c5_blur_veto (ops : FrameOps) (cfg : Config) (i : ℕ) (s : EngineState)
    (hb : is_blurry ops i = true) (hcool : s.cooldown = 0) :
    stepSampled ops cfg i s =
      (match s.reference_slide with
       | none => s
       | some _ => { s with stable_count := 0, candidate_frame := none }) := by
  cases href : s.reference_slide with
  | none => simp [stepSampled, href, hb]
  | some r => simp [stepSampled, href, hb, hcool]

theorem c5_blur_veto_witness :
    is_blurry opsLateSharp 1 = true ∧
    ({ reference_slide := some 3, candidate_frame := some 4, candidate_frame_color := some 4,
       stable_count := 2, slide_count := 1, cooldown := 0,
       slides := [(1, 3)] } : EngineState).cooldown = 0 ∧
    stepSampled opsLateSharp cfgW 1
        { reference_slide := some 3, candidate_frame := some 4, candidate_frame_color := some 4,
          stable_count := 2, slide_count := 1, cooldown := 0, slides := [(1, 3)] } =
      { reference_slide := some 3, candidate_frame := none, candidate_frame_color := some 4,
        stable_count := 0, slide_count := 1, cooldown := 0, slides := [(1, 3)] } :=
  ⟨by norm_num [is_blurry, opsLateSharp, BLUR_THRESHOLD], rfl,
   c5_blur_veto opsLateSharp cfgW 1 _
     (by norm_num [is_blurry, opsLateSharp, BLUR_THRESHOLD]) rfl⟩

/-- C6: if every sampled frame of a prefix is blurry the engine stays in
its initial state (zero slides committed), and the first sharp sampled
frame after such a prefix is committed unconditionally as slide number 1
and installed as the reference slide. -/
theorem c6_first_frame_gating (ops : FrameOps) (cfg : Config) (fs : List ℕ) (i : ℕ)
    (hall : ∀ j ∈ fs, is_blurry ops j = true) :
    runSeq ops cfg fs initState = initState ∧
    (is_blurry ops i = false →
      runSeq ops cfg (fs ++ [i]) initState =
        { initState with slide_count := 1, reference_slide := some i, slides := [(1, i)] }) := by
  have hkeep : ∀ (l : List ℕ), (∀ j ∈ l, is_blurry ops j = true) →
      runSeq ops cfg l initState = initState := by
    intro l
    induction l with
    | nil => intro _; rfl
    | cons a t ih =>
      intro h
      have ha : is_blurry ops a = true := h a (List.mem_cons_self a t)
      have hstep : stepSampled ops cfg a initState = initState := by
        simp [stepSampled, initState, ha]
      calc runSeq ops cfg (a :: t) initState
          = runSeq ops cfg t (stepSampled ops cfg a initState) := by simp [runSeq]
        _ = runSeq ops cfg t initState := by rw [hstep]
        _ = initState := ih (fun j hj => h j (List.mem_cons_of_mem a hj))
  refine ⟨hkeep fs hall, fun hi => ?_⟩
  have happ : runSeq ops cfg (fs ++ [i]) initState =
      stepSampled ops cfg i (runSeq ops cfg fs initState) := by
    simp [runSeq]
  rw [happ, hkeep fs hall]
  simp [stepSampled, initState, hi]

theorem c6_first_frame_gating_witness :
    is_blurry opsLateSharp 1 = true ∧ is_blurry opsLateSharp 2 = true ∧
    is_blurry opsLateSharp 3 = false ∧
    runSeq opsLateSharp cfgW [1, 2] initState = initState ∧
    runSeq opsLateSharp cfgW ([1, 2] ++ [3]) initState =
      { initState with slide_count := 1, reference_slide := some 3, slides := [(1, 3)] } := by
  have h := c6_first_frame_gating opsLateSharp cfgW [1, 2] 3 (by
    intro j hj
    fin_cases hj <;> norm_num [is_blurry, opsLateSharp, BLUR_THRESHOLD])
  exact ⟨by norm_num [is_blurry, opsLateSharp, BLUR_THRESHOLD],
         by norm_num [is_blurry, opsLateSharp, BLUR_THRESHOLD],
         by norm_num [is_blurry, opsLateSharp, BLUR_THRESHOLD],
         h.1, h.2 (by norm_num [is_blurry, opsLateSharp, BLUR_THRESHOLD])⟩

theorem c1_detect_monotone_witness :
    (6/10 : ℚ) ≤ 85/100 ∧
    detect_scene_change opsHalf (some 1) 2 (6/10) (derived_hist_thresh (6/10)) = true ∧
    detect_scene_change opsHalf (some 1) 2 (85/100) (derived_hist_thresh (85/100)) = true :=
  ⟨by norm_num, by norm_num [detect_scene_change, derived_hist_thresh, opsHalf],
   c1_detect_monotone opsHalf (some 1) 2 (6/10) (85/100) (by norm_num)
     (by norm_num [detect_scene_change, derived_hist_thresh, opsHalf])⟩

/-- One-step preservation of candidate pair coherence: the grayscale and
color candidate buffers always hold the same frame, because the source
only ever assigns them together (adoption and churn). -/
lemma c10_pair_step (ops : FrameOps) (cfg : Config) (i : ℕ) (s : EngineState)
    (h : ∀ c, s.candidate_frame = some c → s.candidate_frame_color = some c) :
    ∀ c, (stepSampled ops cfg i s).candidate_frame = some c →
      (stepSampled ops cfg i s).candidate_frame_color = some c := by
  unfold stepSampled
  cases href : s.reference_slide with
  | none =>
    by_cases hb : is_blurry ops i = true
    · simpa [hb] using h
    · simp only [Bool.not_eq_true] at hb
      simpa [hb] using h
  | some r =>
    by_cases hcool : 0 < s.cooldown
    · simpa [hcool] using h
    · by_cases hb : is_blurry ops i = true
      · simp [hcool, hb]
      · by_cases hd : detect_scene_change ops (some r) i cfg.threshold cfg.hist_thresh = true
        · cases hcand : s.candidate_frame with
          | none =>
            by_cases hm : cfg.min_stable_frames ≤ 1 <;>
              simp [hcool, hb, hd, hcand, hm]
          | some c =>
            by_cases hsim : frames_similar ops c i cfg.threshold = true
            · by_cases hm : cfg.min_stable_frames ≤ s.stable_count + 1
              · simp [hcool, hb, hd, hcand, hsim, hm]
              · simpa [hcool, hb, hd, hcand, hsim, hm] using h c hcand
            · by_cases hm : cfg.min_stable_frames ≤ 1 <;>
                simp [hcool, hb, hd, hcand, hsim, hm]
        · simp [hcool, hb, hd]

/-- Candidate pair coherence holds in every reachable state. -/
lemma c10_pair_inv (ops : FrameOps) (cfg : Config) (fs : List ℕ) :
    ∀ c, (runSeq ops cfg fs initState).candidate_frame = some c →
      (runSeq ops cfg fs initState).candidate_frame_color = some c := by
  have H : ∀ (l : List ℕ) (s : EngineState),
      (∀ c, s.candidate_frame = some c → s.candidate_frame_color = some c) →
      ∀ c, (runSeq ops cfg l s).candidate_frame = some c →
        (runSeq ops cfg l s).candidate_frame_color = some c := by
    intro l
    induction l with
    | nil => intro s h; exact h
    | cons a t ih =>
      intro s h
      have : runSeq ops cfg (a :: t) s = runSeq ops cfg t (stepSampled ops cfg a s) := by
        simp [runSeq]
      rw [this]
      exact ih _ (c10_pair_step ops cfg a s h)
  exact H fs initState (by intro c hc; cases hc)

/-- C10: at every commit after the first (i.e. from a reachable state
that already holds a reference slide), the color image appended to the
output and the grayscale image installed as the new reference originate
from the same sampled frame: the step appends exactly one slide whose
stored frame equals the new reference frame. -/
theorem c10_commit_pairs (ops : FrameOps) (cfg : Config) (fs : List ℕ) (i r : ℕ)
    (s : EngineState) (hs : s = runSeq ops cfg fs initState)
    (href : s.reference_slide = some r)
    (hcommit : s.slide_count < (stepSampled ops cfg i s).slide_count) :
    (stepSampled ops cfg i s).slides =
      s.slides ++ [((stepSampled ops cfg i s).slide_count,
        (stepSampled ops cfg i s).reference_slide.getD 0)] ∧
    (stepSampled ops cfg i s).reference_slide ≠ none := by
  have hpair : ∀ c, s.candidate_frame = some c → s.candidate_frame_color = some c := by
    rw [hs]; exact c10_pair_inv ops cfg fs
  by_cases hcool : 0 < s.cooldown
  · exfalso; simp [stepSampled, href, hcool] at hcommit
  · by_cases hb : is_blurry ops i = true
    · exfalso; simp [stepSampled, href, hcool, hb] at hcommit
    · by_cases hd : detect_scene_change ops (some r) i cfg.threshold cfg.hist_thresh = true
      · cases hcand : s.candidate_frame with
        | none =>
          by_cases hm : cfg.min_stable_frames ≤ 1
          · simp [stepSampled, href, hcool, hb, hd, hcand, hm]
          · exfalso; simp [stepSampled, href, hcool, hb, hd, hcand, hm] at hcommit
        | some c =>
          by_cases hsim : frames_similar ops c i cfg.threshold = true
          · by_cases hm : cfg.min_stable_frames ≤ s.stable_count + 1
            · simp [stepSampled, href, hcool, hb, hd, hcand, hsim, hm, hpair c hcand]
            · exfalso; simp [stepSampled, href, hcool, hb, hd, hcand, hsim, hm] at hcommit
          · by_cases hm : cfg.min_stable_frames ≤ 1
            · simp [stepSampled, href, hcool, hb, hd, hcand, hsim, hm]
            · exfalso; simp [stepSampled, href, hcool, hb, hd, hcand, hsim, hm] at hcommit
      · exfalso; simp [stepSampled, href, hcool, hb, hd] at hcommit

theorem c10_commit_pairs_witness :
    sW10 = runSeq opsHalf cfgW [1] initState ∧
    (stepSampled opsHalf cfgW 2 sW10).slides =
      sW10.slides ++ [((stepSampled opsHalf cfgW 2 sW10).slide_count,
        (stepSampled opsHalf cfgW 2 sW10).reference_slide.getD 0)] ∧
    (stepSampled opsHalf cfgW 2 sW10).reference_slide ≠ none := by
  have hs : sW10 = runSeq opsHalf cfgW [1] initState := by
    norm_num [sW10, runSeq, stepSampled, initState, is_blurry, opsHalf, BLUR_THRESHOLD]
  have h := c10_commit_pairs opsHalf cfgW [1] 2 1 sW10 hs rfl (by
    norm_num [sW10, stepSampled, is_blurry, detect_scene_change, frames_similar,
      opsHalf, cfgW, BLUR_THRESHOLD])
  exact ⟨hs, h.1, h.2⟩

/-- A step commits at most one slide. -/
lemma step_slide_le (ops : FrameOps) (cfg : Config) (i : ℕ) (s : EngineState) :
    (stepSampled ops cfg i s).slide_count ≤ s.slide_count + 1 := by
  unfold stepSampled
  cases href : s.reference_slide with
  | none =>
    by_cases hb : is_blurry ops i = true <;> simp [hb]
  | some r =>
    by_cases hcool : 0 < s.cooldown
    · simp [hcool]
    · by_cases hb : is_blurry ops i = true
      · simp [hcool, hb]
      · by_cases hd : detect_scene_change ops (some r) i cfg.threshold cfg.hist_thresh = true
        · cases hcand : s.candidate_frame with
          | none =>
            by_cases hm : cfg.min_stable_frames ≤ 1 <;>
              simp [hcool, hb, hd, hcand, hm]
          | some c =>
            by_cases hsim : frames_similar ops c i cfg.threshold = true
            · by_cases hm : cfg.min_stable_frames ≤ s.stable_count + 1 <;>
                simp [hcool, hb, hd, hcand, hsim, hm]
            · by_cases hm : cfg.min_stable_frames ≤ 1 <;>
                simp [hcool, hb, hd, hcand, hsim, hm]
        · simp [hcool, hb, hd]

/-- A step never discards committed slides. -/
lemma step_slide_mono (ops : FrameOps) (cfg : Config) (i : ℕ) (s : EngineState) :
    s.slide_count ≤ (stepSampled ops cfg i s).slide_count := by
  unfold stepSampled
  cases href : s.reference_slide with
  | none =>
    by_cases hb : is_blurry ops i = true <;> simp [hb]
  | some r =>
    by_cases hcool : 0 < s.cooldown
    · simp [hcool]
    · by_cases hb : is_blurry ops i = true
      · simp [hcool, hb]
      · by_cases hd : detect_scene_change ops (some r) i cfg.threshold cfg.hist_thresh = true
        · cases hcand : s.candidate_frame with
          | none =>
            by_cases hm : cfg.min_stable_frames ≤ 1 <;>
              simp [hcool, hb, hd, hcand, hm]
          | some c =>
            by_cases hsim : frames_similar ops c i cfg.threshold = true
            · by_cases hm : cfg.min_stable_frames ≤ s.stable_count + 1 <;>
                simp [hcool, hb, hd, hcand, hsim, hm]
            · by_cases hm : cfg.min_stable_frames ≤ 1 <;>
                simp [hcool, hb, hd, hcand, hsim, hm]
        · simp [hcool, hb, hd]

/-- The only transition that leaves the reference slide absent is the
blur-skip in the awaiting-first-frame state, which leaves the whole
state untouched. -/
lemma step_ref_none (ops : FrameOps) (cfg : Config) (i : ℕ) (s : EngineState)
    (h : (stepSampled ops cfg i s).reference_slide = none) :
    stepSampled ops cfg i s = s ∧ s.reference_slide = none := by
  unfold stepSampled at h ⊢
  cases href : s.reference_slide with
  | none =>
    by_cases hb : is_blurry ops i = true
    · simp [hb]
    · rw [href] at h
      simp [hb] at h
  | some r =>
    rw [href] at h
    by_cases hcool : 0 < s.cooldown
    · simp [hcool, href] at h
    · by_cases hb : is_blurry ops i = true
      · simp [hcool, hb, href] at h
      · by_cases hd : detect_scene_change ops (some r) i cfg.threshold cfg.hist_thresh = true
        · cases hcand : s.candidate_frame with
          | none =>
            by_cases hm : cfg.min_stable_frames ≤ 1 <;>
              simp [hcool, hb, hd, hcand, hm, href] at h
          | some c =>
            by_cases hsim : frames_similar ops c i cfg.threshold = true
            · by_cases hm : cfg.min_stable_frames ≤ s.stable_count + 1 <;>
                simp [hcool, hb, hd, hcand, hsim, hm, href] at h
            · by_cases hm : cfg.min_stable_frames ≤ 1 <;>
                simp [hcool, hb, hd, hcand, hsim, hm, href] at h
        · simp [hcool, hb, hd, href] at h

/-- A missing reference means nothing has been committed, in every
reachable state. -/
lemma ref_none_zero (ops : FrameOps) (cfg : Config) (l : List ℕ)
    (h : (runSeq ops cfg l initState).reference_slide = none) :
    (runSeq ops cfg l initState).slide_count = 0 := by
  have H : ∀ (l' : List ℕ) (s : EngineState),
      (s.reference_slide = none → s.slide_count = 0) →
      ((runSeq ops cfg l' s).reference_slide = none →
        (runSeq ops cfg l' s).slide_count = 0) := by
    intro l'
    induction l' with
    | nil => intro s hs; exact hs
    | cons a t ih =>
      intro s hs
      have hrw : runSeq ops cfg (a :: t) s = runSeq ops cfg t (stepSampled ops cfg a s) := by
        simp [runSeq]
      rw [hrw]
      refine ih _ (fun hn => ?_)
      obtain ⟨heq, hnone⟩ := step_ref_none ops cfg a s hn
      rw [heq]
      exact hs hnone
  exact H l initState (fun _ => rfl) h

/-- Shape of a commit step taken from a state that already holds a
reference: the cooldown counter is loaded, the stability count cleared,
the pre-state was outside cooldown, and the stability requirement was
met by a count that grew by at most one. -/
lemma step_commit_shape (ops : FrameOps) (cfg : Config) (i : ℕ) (s : EngineState) (r : ℕ)
    (href : s.reference_slide = some r)
    (hc : s.slide_count < (stepSampled ops cfg i s).slide_count) :
    (stepSampled ops cfg i s).cooldown = cfg.cooldown_frames ∧
    (stepSampled ops cfg i s).stable_count = 0 ∧
    s.cooldown = 0 ∧
    cfg.min_stable_frames ≤ s.stable_count + 1 := by
  unfold stepSampled at hc ⊢
  rw [href] at hc ⊢
  by_cases hcool : 0 < s.cooldown
  · simp [hcool] at hc
  · by_cases hb : is_blurry ops i = true
    · simp [hcool, hb] at hc
    · by_cases hd : detect_scene_change ops (some r) i cfg.threshold cfg.hist_thresh = true
      · cases hcand : s.candidate_frame with
        | none =>
          by_cases hm : cfg.min_stable_frames ≤ 1
          · simp only [hcool, hb, hd, hcand, hm] at hc ⊢
            simp [hm]
            omega
          · simp [hcool, hb, hd, hcand, hm] at hc
        | some c =>
          by_cases hsim : frames_similar ops c i cfg.threshold = true
          · by_cases hm : cfg.min_stable_frames ≤ s.stable_count + 1
            · simp only [hcool, hb, hd, hcand, hsim, hm] at hc ⊢
              simp [hm]
              omega
            · simp [hcool, hb, hd, hcand, hsim, hm] at hc
          · by_cases hm : cfg.min_stable_frames ≤ 1
            · simp only [hcool, hb, hd, hcand, hsim, hm] at hc ⊢
              simp [hm]
              omega
            · simp [hcool, hb, hd, hcand, hsim, hm] at hc
      · simp [hcool, hb, hd] at hc

/-- Shape of a non-committing step from a state that holds a reference:
either the step was a cooldown decrement (stability untouched), or it
ran outside cooldown, stayed outside, and grew the stability count by at
most one. -/
lemma step_nocommit (ops : FrameOps) (cfg : Config) (i : ℕ) (s : EngineState) (r : ℕ)
    (href : s.reference_slide = some r)
    (hnc : (stepSampled ops cfg i s).slide_count = s.slide_count) :
    (0 < s.cooldown ∧ (stepSampled ops cfg i s).stable_count = s.stable_count ∧
      (stepSampled ops cfg i s).cooldown = s.cooldown - 1) ∨
    (s.cooldown = 0 ∧ (stepSampled ops cfg i s).cooldown = 0 ∧
      (stepSampled ops cfg i s).stable_count ≤ s.stable_count + 1) := by
  unfold stepSampled at hnc ⊢
  rw [href] at hnc ⊢
  by_cases hcool : 0 < s.cooldown
  · left
    simp [hcool]
  · right
    have hc0 : s.cooldown = 0 := by omega
    by_cases hb : is_blurry ops i = true
    · simp [hcool, hb, hc0]
    · by_cases hd : detect_scene_change ops (some r) i cfg.threshold cfg.hist_thresh = true
      · cases hcand : s.candidate_frame with
        | none =>
          by_cases hm : cfg.min_stable_frames ≤ 1
          · simp [hcool, hb, hd, hcand, hm] at hnc
          · simp [hcool, hb, hd, hcand, hm, hc0]
        | some c =>
          by_cases hsim : frames_similar ops c i cfg.threshold = true
          · by_cases hm : cfg.min_stable_frames ≤ s.stable_count + 1
            · simp [hcool, hb, hd, hcand, hsim, hm] at hnc
            · simp [hcool, hb, hd, hcand, hsim, hm, hc0]
          · by_cases hm : cfg.min_stable_frames ≤ 1
            · simp [hcool, hb, hd, hcand, hsim, hm] at hnc
            · simp [hcool, hb, hd, hcand, hsim, hm, hc0]
      · simp [hcool, hb, hd, hc0]

/-- Core counting argument for the cooldown gap: starting `d` sampled
steps after a commit (so the stability-plus-cooldown budget satisfies
the stated inequality) with a reference installed, the first commit in
the remaining stream cannot occur sooner than
`cooldown_frames + min_stable_frames` steps after the original one. -/
lemma gap_aux (ops : FrameOps) (cfg : Config) :
    ∀ (l : List ℕ) (s : EngineState) (d p : ℕ),
      s.reference_slide ≠ none →
      s.stable_count + cfg.cooldown_frames ≤ d + s.cooldown →
      (∀ q, q < p → (runSeq ops cfg (l.take (q + 1)) s).slide_count =
        (runSeq ops cfg (l.take q) s).slide_count) →
      (runSeq ops cfg (l.take p) s).slide_count <
        (runSeq ops cfg (l.take (p + 1)) s).slide_count →
      cfg.cooldown_frames + cfg.min_stable_frames ≤ d + p + 1 := by
  intro l
  induction l with
  | nil =>
    intro s d p href hinv hnc hcm
    simp [runSeq] at hcm
  | cons a t ih =>
    intro s d p href hinv hnc hcm
    obtain ⟨r, hr⟩ := Option.ne_none_iff_exists'.mp href
    cases p with
    | zero =>
      have hcm' : s.slide_count < (stepSampled ops cfg a s).slide_count := by
        simpa [runSeq, List.take_succ_cons] using hcm
      obtain ⟨_, _, hcd0, hm⟩ := step_commit_shape ops cfg a s r hr hcm'
      omega
    | succ q =>
      have h0 : (stepSampled ops cfg a s).slide_count = s.slide_count := by
        simpa [runSeq, List.take_succ_cons] using hnc 0 (Nat.succ_pos q)
      have hrefs : (stepSampled ops cfg a s).reference_slide ≠ none := by
        intro hn
        obtain ⟨_, hnone⟩ := step_ref_none ops cfg a s hn
        rw [hr] at hnone
        cases hnone
      have hinv' : (stepSampled ops cfg a s).stable_count + cfg.cooldown_frames ≤
          (d + 1) + (stepSampled ops cfg a s).cooldown := by
        rcases step_nocommit ops cfg a s r hr h0 with ⟨h1, h2, h3⟩ | ⟨h1, h2, h3⟩ <;> omega
      have hrec := ih (stepSampled ops cfg a s) (d + 1) q hrefs hinv'
        (fun q' hq' => by
          simpa [runSeq, List.take_succ_cons] using hnc (q' + 1) (by omega))
        (by simpa [runSeq, List.take_succ_cons] using hcm)
      omega

/-- Past the end of the sampled stream the trace is constant. -/
lemma stateAt_past_length (ops : FrameOps) (cfg : Config) (fs : List ℕ) (j : ℕ)
    (h : fs.length ≤ j) :
    stateAt ops cfg fs j = stateAt ops cfg fs fs.length := by
  unfold stateAt
  rw [List.take_of_length_le h, List.take_length]

/-- A commit step stays inside the sampled stream. -/
lemma commitAt_lt_length (ops : FrameOps) (cfg : Config) (fs : List ℕ) (j : ℕ)
    (h : commitAt ops cfg fs j) : j < fs.length := by
  by_contra hle
  push_neg at hle
  unfold commitAt at h
  rw [stateAt_past_length ops cfg fs j hle,
      stateAt_past_length ops cfg fs (j + 1) (by omega)] at h
  exact lt_irrefl _ h

/-- Unfolding one sampled step of the trace. -/
lemma stateAt_succ_get (ops : FrameOps) (cfg : Config) (fs : List ℕ) (j : ℕ)
    (h : j < fs.length) :
    stateAt ops cfg fs (j + 1) =
      stepSampled ops cfg fs[j] (stateAt ops cfg fs j) := by
  unfold stateAt runSeq
  rw [List.take_succ, List.getElem?_eq_getElem h, Option.toList_some,
    List.foldl_append, List.foldl_cons, List.foldl_nil]

/-- The committed-slide count is nondecreasing along the trace. -/
lemma stateAt_slide_mono (ops : FrameOps) (cfg : Config) (fs : List ℕ) (j : ℕ) :
    (stateAt ops cfg fs j).slide_count ≤ (stateAt ops cfg fs (j + 1)).slide_count := by
  by_cases h : j < fs.length
  · rw [stateAt_succ_get ops cfg fs j h]
    exact step_slide_mono ops cfg _ _
  · push_neg at h
    rw [stateAt_past_length ops cfg fs j h,
        stateAt_past_length ops cfg fs (j + 1) (by omega)]

/-- Splitting the trace at an intermediate step. -/
lemma stateAt_add (ops : FrameOps) (cfg : Config) (fs : List ℕ) (m t : ℕ) :
    stateAt ops cfg fs (m + t) =
      runSeq ops cfg ((fs.drop m).take t) (stateAt ops cfg fs m) := by
  unfold stateAt runSeq
  rw [List.take_add, List.foldl_append]

/-- C3: the sampled-frame distance between two consecutive commits, the
earlier of which is not the first commit of the run, is at least
`cooldown_frames + min_stable_frames`: the commit loads the cooldown
counter and clears stability, the cooldown frames decrement it without
detection, and the stability count grows by at most one per sampled
frame afterwards. -/
theorem c3_commit_gap (ops : FrameOps) (cfg : Config) (fs : List ℕ) (j1 j2 : ℕ)
    (h1 : commitAt ops cfg fs j1) (h2 : commitAt ops cfg fs j2)
    (hlt : j1 < j2) (hbet : noCommitStrictlyBetween ops cfg fs j1 j2)
    (hsecond : 2 ≤ (stateAt ops cfg fs (j1 + 1)).slide_count) :
    cfg.cooldown_frames + cfg.min_stable_frames ≤ j2 - j1 := by
  have hj1len : j1 < fs.length := commitAt_lt_length ops cfg fs j1 h1
  have hsucc1 := stateAt_succ_get ops cfg fs j1 hj1len
  have h1' : (stateAt ops cfg fs j1).slide_count <
      (stepSampled ops cfg fs[j1] (stateAt ops cfg fs j1)).slide_count := by
    have := h1
    unfold commitAt at this
    rwa [hsucc1] at this
  have hslide1 : 1 ≤ (stateAt ops cfg fs j1).slide_count := by
    have hle := step_slide_le ops cfg fs[j1] (stateAt ops cfg fs j1)
    have hsec2 : 2 ≤ (stepSampled ops cfg fs[j1] (stateAt ops cfg fs j1)).slide_count := by
      rw [← hsucc1]
      exact hsecond
    omega
  have hrefs0 : (stateAt ops cfg fs j1).reference_slide ≠ none := by
    intro hn
    have h0 : (stateAt ops cfg fs j1).slide_count = 0 :=
      ref_none_zero ops cfg (fs.take j1) hn
    omega
  obtain ⟨r, hr⟩ := Option.ne_none_iff_exists'.mp hrefs0
  obtain ⟨hcd, hst, _, _⟩ :=
    step_commit_shape ops cfg fs[j1] (stateAt ops cfg fs j1) r hr h1'
  have hrefs1 : (stateAt ops cfg fs (j1 + 1)).reference_slide ≠ none := by
    rw [hsucc1]
    intro hn
    obtain ⟨_, hnone⟩ := step_ref_none ops cfg fs[j1] (stateAt ops cfg fs j1) hn
    exact hrefs0 hnone
  have hinv1 : (stateAt ops cfg fs (j1 + 1)).stable_count + cfg.cooldown_frames ≤
      0 + (stateAt ops cfg fs (j1 + 1)).cooldown := by
    rw [hsucc1, hst, hcd]
  have hnc : ∀ q, q < j2 - j1 - 1 →
      (runSeq ops cfg ((fs.drop (j1 + 1)).take (q + 1)) (stateAt ops cfg fs (j1 + 1))).slide_count =
      (runSeq ops cfg ((fs.drop (j1 + 1)).take q) (stateAt ops cfg fs (j1 + 1))).slide_count := by
    intro q hq
    rw [← stateAt_add ops cfg fs (j1 + 1) (q + 1), ← stateAt_add ops cfg fs (j1 + 1) q]
    have hmono := stateAt_slide_mono ops cfg fs (j1 + 1 + q)
    have hnotc := hbet (j1 + 1 + q) (by omega) (by omega)
    unfold commitAt at hnotc
    have hidx : j1 + 1 + (q + 1) = j1 + 1 + q + 1 := by omega
    rw [hidx]
    omega
  have hcm : (runSeq ops cfg ((fs.drop (j1 + 1)).take (j2 - j1 - 1))
        (stateAt ops cfg fs (j1 + 1))).slide_count <
      (runSeq ops cfg ((fs.drop (j1 + 1)).take (j2 - j1 - 1 + 1))
        (stateAt ops cfg fs (j1 + 1))).slide_count := by
    rw [← stateAt_add ops cfg fs (j1 + 1) (j2 - j1 - 1),
        ← stateAt_add ops cfg fs (j1 + 1) (j2 - j1 - 1 + 1)]
    have hidx1 : j1 + 1 + (j2 - j1 - 1) = j2 := by omega
    have hidx2 : j1 + 1 + (j2 - j1 - 1 + 1) = j2 + 1 := by omega
    rw [hidx1, hidx2]
    exact h2
  have := gap_aux ops cfg (fs.drop (j1 + 1)) (stateAt ops cfg fs (j1 + 1))
    0 (j2 - j1 - 1) hrefs1 hinv1 hnc hcm
  omega

theorem c3_commit_gap_witness :
    commitAt opsHalf cfgW [1, 2, 3, 4] 1 ∧
    commitAt opsHalf cfgW [1, 2, 3, 4] 3 ∧
    noCommitStrictlyBetween opsHalf cfgW [1, 2, 3, 4] 1 3 ∧
    2 ≤ (stateAt opsHalf cfgW [1, 2, 3, 4] 2).slide_count ∧
    cfgW.cooldown_frames + cfgW.min_stable_frames ≤ 3 - 1 := by
  have h1 : commitAt opsHalf cfgW [1, 2, 3, 4] 1 := by
    norm_num [commitAt, stateAt, runSeq, stepSampled, initState, is_blurry,
      detect_scene_change, frames_similar, opsHalf, cfgW, BLUR_THRESHOLD]
  have h2 : commitAt opsHalf cfgW [1, 2, 3, 4] 3 := by
    norm_num [commitAt, stateAt, runSeq, stepSampled, initState, is_blurry,
      detect_scene_change, frames_similar, opsHalf, cfgW, BLUR_THRESHOLD]
  have hbet : noCommitStrictlyBetween opsHalf cfgW [1, 2, 3, 4] 1 3 := by
    intro j hja hjb
    have hj : j = 2 := by omega
    subst hj
    norm_num [commitAt, stateAt, runSeq, stepSampled, initState, is_blurry,
      detect_scene_change, frames_similar, opsHalf, cfgW, BLUR_THRESHOLD]
  have hs : 2 ≤ (stateAt opsHalf cfgW [1, 2, 3, 4] 2).slide_count := by
    norm_num [stateAt, runSeq, stepSampled, initState, is_blurry,
      detect_scene_change, frames_similar, opsHalf, cfgW, BLUR_THRESHOLD]
  exact ⟨h1, h2, hbet, hs,
    c3_commit_gap opsHalf cfgW [1, 2, 3, 4] 1 3 h1 h2 (by omega) hbet hs⟩

end SlideSnap
